import Mathlib

/-!
Verification development for the legal-change-detector analyzer
(`fastmcp_server.py`, class `LegalDocumentAnalyzer`).

The JSON trees the analyzer operates on are embedded as Lean structures.
Python dictionary fields that may be absent are modelled as `Option`;
fields that are only ever read through `.get(key, default)` and truthiness
checks (`text`, `clauses`) are modelled by the defaulted value directly,
which is observationally equivalent for every access the code performs.
Clause payloads are opaque pass-through content, modelled as strings.
Error dictionaries `{"error": msg}` are modelled as an `err msg`
constructor: two such dictionaries are equal exactly when their messages
are equal. Python `str.lower` is modelled by ASCII lowering (`pyLower`),
which agrees with it on the ASCII data the comparisons are specified for.
-/

namespace LegalMCP

/-- Opaque clause payload (passed through unmodified by the analyzer). -/
abbrev Clause := String

/-- The `target` sub-dictionary of an amendment (all keys optional). -/
structure Target where
  article_number : Option String := none
  clause_number : Option String := none
  insert_after_article : Option String := none
  deriving DecidableEq

/-- One entry of the amendment document's `amendments` list. -/
structure Amendment where
  amendment_type : Option String := none
  target : Target := {}
  text : String := ""
  clauses : List Clause := []
  deriving DecidableEq

/-- An article of the decree. -/
structure Article where
  article_number : Option String := none
  article_title : Option String := none
  clauses : List Clause := []
  deriving DecidableEq

/-- A chapter of the decree. -/
structure Chapter where
  chapter_number : Option String := none
  chapter_title : Option String := none
  articles : List Article := []
  deriving DecidableEq

/-- The decree tree (`decree_data["Decree"]["chapters"]`). -/
structure Decree where
  chapters : List Chapter := []
  deriving DecidableEq

/-- The amendment tree (`amendment_data["amendments"]`). -/
structure AmendmentDoc where
  amendments : List Amendment := []
  deriving DecidableEq

/-- The analyzer's mutable fields (`self.decree_data`, `self.amendment_data`). -/
structure AnalyzerState where
  decree_data : Option Decree := none
  amendment_data : Option AmendmentDoc := none
  deriving DecidableEq

/-- `load_decree_data` (successful load): assigns `self.decree_data`. -/
def load_decree_data (st : AnalyzerState) (d : Decree) : AnalyzerState :=
  { st with decree_data := some d }

/-- `load_amendment_data` (successful load): assigns `self.amendment_data`. -/
def load_amendment_data (st : AnalyzerState) (a : AmendmentDoc) : AnalyzerState :=
  { st with amendment_data := some a }

/-- Python rendering of an optional string in an f-string (`None` prints as "None"). -/
def pyStr : Option String → String
  | none => "None"
  | some s => s

/-- ASCII lowering of one character (model of `str.lower` on ASCII data). -/
def lowerChar (c : Char) : Char :=
  if 65 ≤ c.toNat ∧ c.toNat ≤ 90 then Char.ofNat (c.toNat + 32) else c

/-- ASCII lowering of a string (model of Python `str.lower`). -/
def pyLower (s : String) : String := ⟨s.data.map lowerChar⟩

/-- The `change_info` record built by `get_changes_in_article` for one match. -/
structure ChangeInfo where
  amendment_type : Option String
  target : Target
  text : String
  clauses : List Clause
  insert_after_article : Option String
  deriving DecidableEq

/-- Builds the `change_info` dictionary for one matching amendment
(the `insert_after_article` key is present iff it is present in the target). -/
def mkChangeInfo (a : Amendment) : ChangeInfo :=
  { amendment_type := a.amendment_type
    target := a.target
    text := a.text
    clauses := a.clauses
    insert_after_article := a.target.insert_after_article }

/-- The `for amendment in ...` loop of `get_changes_in_article`: appends a
`change_info` for every amendment whose `target.article_number` equals the query. -/
def changesLoop (ams : List Amendment) (article_number : String) : List ChangeInfo :=
  match ams with
  | [] => []
  | a :: rest =>
      if a.target.article_number == some article_number then
        mkChangeInfo a :: changesLoop rest article_number
      else
        changesLoop rest article_number

/-- Successful result shape of `get_changes_in_article`. -/
structure ChangesOk where
  article_number : String
  changes : List ChangeInfo
  total_changes : Nat
  deriving DecidableEq

/-- Result of `get_changes_in_article`: the error dictionary or the record. -/
inductive ChangesResult where
  | err (msg : String)
  | ok (r : ChangesOk)
  deriving DecidableEq

/-- `changes.get("total_changes", 0)` on a `get_changes_in_article` result. -/
def ChangesResult.total_changesD : ChangesResult → Nat
  | .err _ => 0
  | .ok r => r.total_changes

/-- `changes.get("changes", [])` on a `get_changes_in_article` result. -/
def ChangesResult.changesD : ChangesResult → List ChangeInfo
  | .err _ => []
  | .ok r => r.changes

/-- `LegalDocumentAnalyzer.get_changes_in_article`. -/
def get_changes_in_article (st : AnalyzerState) (article_number : String) : ChangesResult :=
  match st.amendment_data with
  | none => .err "Amendment data not loaded"
  | some ad =>
      let changes := changesLoop ad.amendments article_number
      .ok { article_number := article_number
            changes := changes
            total_changes := changes.length }

/-- The article view returned by `get_article_content` on success. -/
structure ArticleView where
  article_number : String
  title : Option String
  clauses : List Clause
  chapter_number : Option String
  chapter_title : Option String
  deriving DecidableEq

/-- Result of `get_article_content`: an error dictionary or an article view. -/
inductive ArticleContentResult where
  | err (msg : String)
  | found (v : ArticleView)
  deriving DecidableEq

/-- The view dictionary `get_article_content` builds for a matching article. -/
def mkArticleView (article_number : String) (ch : Chapter) (a : Article) : ArticleView :=
  { article_number := article_number
    title := a.article_title
    clauses := a.clauses
    chapter_number := ch.chapter_number
    chapter_title := ch.chapter_title }

/-- Inner loop of `get_article_content`: scans one chapter's articles in order. -/
def findInArticles (ch : Chapter) (arts : List Article) (q : String) : Option ArticleView :=
  match arts with
  | [] => none
  | a :: rest =>
      if a.article_number == some q then some (mkArticleView q ch a)
      else findInArticles ch rest q

/-- Outer loop of `get_article_content`: scans chapters in document order. -/
def findInChapters (chs : List Chapter) (q : String) : Option ArticleView :=
  match chs with
  | [] => none
  | ch :: rest =>
      match findInArticles ch ch.articles q with
      | some v => some v
      | none => findInChapters rest q

/-- The not-found error message of `get_article_content`. -/
def articleNotFoundMsg (q : String) : String := "Article " ++ q ++ " not found"

/-- `LegalDocumentAnalyzer.get_article_content`. -/
def get_article_content (st : AnalyzerState) (article_number : String) : ArticleContentResult :=
  match st.decree_data with
  | none => .err "Decree data not loaded"
  | some d =>
      match findInChapters d.chapters article_number with
      | some v => .found v
      | none => .err (articleNotFoundMsg article_number)

/-- The derived `analysis` block of `compare_article_before_after`. -/
structure CompareAnalysis where
  has_changes : Bool
  change_types : List (Option String)
  is_new_article : Bool
  deriving DecidableEq

/-- Result of `compare_article_before_after`. -/
structure CompareResult where
  article_number : String
  original_content : ArticleContentResult
  changes : ChangesResult
  analysis : CompareAnalysis
  deriving DecidableEq

/-- `LegalDocumentAnalyzer.compare_article_before_after`. -/
def compare_article_before_after (st : AnalyzerState) (article_number : String) :
    CompareResult :=
  let original_content := get_article_content st article_number
  let changes := get_changes_in_article st article_number
  { article_number := article_number
    original_content := original_content
    changes := changes
    analysis :=
      { has_changes := 0 < changes.total_changesD
        change_types := changes.changesD.map (fun c => c.amendment_type)
        is_new_article := changes.changesD.any (fun c => c.target.insert_after_article.isSome) } }

/-- Record returned by `get_amendment_details` for an in-range index. -/
structure AmendmentRecord where
  index : Int
  amendment_type : Option String
  target : Target
  text : String
  clauses : List Clause
  clause_count : Nat
  has_text : Bool
  has_clauses : Bool
  deriving DecidableEq

/-- Result of `get_amendment_details`. -/
inductive AmendmentDetailsResult where
  | err (msg : String)
  | ok (r : AmendmentRecord)
  deriving DecidableEq

/-- The out-of-range error message (carries the requested index and the count). -/
def outOfRangeMsg (i : Int) (count : Nat) : String :=
  "Amendment index " ++ toString i ++ " out of range. Total amendments: " ++ toString count

/-- Bounds-checked positional access `amendments[amendment_index]` for an
index already known to be in range. -/
def amendmentAt (ams : List Amendment) (i : Int)
    (h : ¬(i < 0 ∨ (ams.length : Int) ≤ i)) : Amendment :=
  ams.get ⟨i.toNat, by omega⟩

/-- `LegalDocumentAnalyzer.get_amendment_details`. -/
def get_amendment_details (st : AnalyzerState) (amendment_index : Int) :
    AmendmentDetailsResult :=
  match st.amendment_data with
  | none => .err "Amendment data not loaded"
  | some ad =>
      let ams := ad.amendments
      if h : amendment_index < 0 ∨ (ams.length : Int) ≤ amendment_index then
        .err (outOfRangeMsg amendment_index ams.length)
      else
        let a := amendmentAt ams amendment_index h
        .ok { index := amendment_index
              amendment_type := a.amendment_type
              target := a.target
              text := a.text
              clauses := a.clauses
              clause_count := a.clauses.length
              has_text := !a.text.isEmpty
              has_clauses := !a.clauses.isEmpty }

/-- One entry of `search_amendments_by_type`'s `matches` list. -/
structure SearchMatch where
  index : Nat
  amendment_type : Option String
  target_section : Option String
  target_clause : Option String
  has_text : Bool
  has_clauses : Bool
  deriving DecidableEq

/-- Successful result shape of `search_amendments_by_type`. -/
structure SearchOk where
  amendment_type : String
  «matches» : List SearchMatch
  total_matches : Nat
  deriving DecidableEq

/-- Result of `search_amendments_by_type`. -/
inductive SearchResult where
  | err (msg : String)
  | ok (r : SearchOk)
  deriving DecidableEq

/-- The `matches` list of a search result (`none` on the error dictionary). -/
def SearchResult.matchesOf : SearchResult → Option (List SearchMatch)
  | .err _ => none
  | .ok r => some r.«matches»

/-- The `total_matches` field of a search result (`none` on the error dictionary). -/
def SearchResult.totalOf : SearchResult → Option Nat
  | .err _ => none
  | .ok r => some r.total_matches

/-- The `for i, amendment in enumerate(...)` loop of `search_amendments_by_type`:
case-insensitive comparison on `amendment_type` (absent type read as `""`). -/
def searchLoop (ams : List Amendment) (i : Nat) (q : String) : List SearchMatch :=
  match ams with
  | [] => []
  | a :: rest =>
      if pyLower (a.amendment_type.getD "") == pyLower q then
        { index := i
          amendment_type := a.amendment_type
          target_section := a.target.article_number
          target_clause := a.target.clause_number
          has_text := !a.text.isEmpty
          has_clauses := !a.clauses.isEmpty } :: searchLoop rest (i + 1) q
      else
        searchLoop rest (i + 1) q

/-- `LegalDocumentAnalyzer.search_amendments_by_type`. -/
def search_amendments_by_type (st : AnalyzerState) (amendment_type : String) : SearchResult :=
  match st.amendment_data with
  | none => .err "Amendment data not loaded"
  | some ad =>
      let matching := searchLoop ad.amendments 0 amendment_type
      .ok { amendment_type := amendment_type
            «matches» := matching
            total_matches := matching.length }

/-- Python set insertion, observed through the iteration the code later sorts:
adds the element only if it is not already present. -/
def addToSet (xs : List String) (x : String) : List String :=
  if x ∈ xs then xs else xs ++ [x]

/-- The `articles_affected` set accumulated by `summarize_all_changes`'s loop. -/
def affectedLoop (ams : List Amendment) (acc : List String) : List String :=
  match ams with
  | [] => acc
  | a :: rest =>
      match a.target.article_number with
      | some n => affectedLoop rest (addToSet acc n)
      | none => affectedLoop rest acc

/-- The `new_articles` set accumulated by `summarize_all_changes`'s loop
(article numbers whose target also carries `insert_after_article`). -/
def newArticlesLoop (ams : List Amendment) (acc : List String) : List String :=
  match ams with
  | [] => acc
  | a :: rest =>
      match a.target.article_number with
      | some n =>
          newArticlesLoop rest
            (if a.target.insert_after_article.isSome then addToSet acc n else acc)
      | none => newArticlesLoop rest acc

/-- `amendment_counts[t] = amendment_counts.get(t, 0) + 1` on an
insertion-ordered association list (the model of a Python dict). -/
def bumpCount (counts : List (Option String × Nat)) (t : Option String) :
    List (Option String × Nat) :=
  match counts with
  | [] => [(t, 1)]
  | (k, n) :: rest => if k = t then (k, n + 1) :: rest else (k, n) :: bumpCount rest t

/-- The `amendment_counts` dictionary accumulated by `summarize_all_changes`. -/
def countsLoop (ams : List Amendment) (acc : List (Option String × Nat)) :
    List (Option String × Nat) :=
  match ams with
  | [] => acc
  | a :: rest => countsLoop rest (bumpCount acc a.amendment_type)

/-- Python `sorted` on a list of strings (ascending lexicographic by code point;
Lean's `String` linear order compares code points the same way). -/
def sortStrings (l : List String) : List String := List.insertionSort (· ≤ ·) l

/-- The `summary` block of `summarize_all_changes`. -/
structure Summary where
  total_amendments : Nat
  amendment_types : List (Option String × Nat)
  articles_affected : Nat
  affected_articles : List String
  new_articles_added : Nat
  new_articles : List String
  deriving DecidableEq

/-- One entry of the `detailed_changes` list of `summarize_all_changes`. -/
structure DetailedChange where
  amendment_type : Option String
  target_article : Option String
  target_clause : Option String
  is_new_article : Bool
  insert_after : Option String
  has_text : Bool
  has_clauses : Bool
  clause_count : Nat
  deriving DecidableEq

/-- The `detailed_changes` record for one amendment. -/
def mkDetailedChange (a : Amendment) : DetailedChange :=
  { amendment_type := a.amendment_type
    target_article := a.target.article_number
    target_clause := a.target.clause_number
    is_new_article := a.target.insert_after_article.isSome
    insert_after := a.target.insert_after_article
    has_text := !a.text.isEmpty
    has_clauses := !a.clauses.isEmpty
    clause_count := a.clauses.length }

/-- Result of `summarize_all_changes`. -/
inductive SummarizeResult where
  | err (msg : String)
  | ok (summary : Summary) (detailed_changes : List DetailedChange)
  deriving DecidableEq

/-- The `affected_articles` list of a summarize result (`[]` on error). -/
def SummarizeResult.affectedOf : SummarizeResult → List String
  | .err _ => []
  | .ok s _ => s.affected_articles

/-- The `new_articles` list of a summarize result (`[]` on error). -/
def SummarizeResult.newOf : SummarizeResult → List String
  | .err _ => []
  | .ok s _ => s.new_articles

/-- `LegalDocumentAnalyzer.summarize_all_changes`. -/
def summarize_all_changes (st : AnalyzerState) : SummarizeResult :=
  match st.amendment_data with
  | none => .err "Amendment data not loaded"
  | some ad =>
      let ams := ad.amendments
      let articles_affected := affectedLoop ams []
      let new_articles := newArticlesLoop ams []
      .ok
        { total_amendments := ams.length
          amendment_types := countsLoop ams []
          articles_affected := articles_affected.length
          affected_articles := sortStrings articles_affected
          new_articles_added := new_articles.length
          new_articles := sortStrings new_articles }
        (ams.map mkDetailedChange)

/-- A `{"text": ..., "clauses": ...}` payload of `get_detailed_amendment_analysis`. -/
structure DetailedPayload where
  text : String
  clauses : List Clause
  deriving DecidableEq

/-- The analysis record built by `get_detailed_amendment_analysis`; the optional
fields model dictionary keys that are only conditionally inserted. -/
structure DetailedAnalysis where
  amendment_index : Int
  amendment_type : Option String
  target_article : Option String
  target_clause : Option String
  is_new_article : Bool
  insert_after : Option String
  original_content : Option ArticleContentResult := none
  added_content : Option DetailedPayload := none
  modified_content : Option DetailedPayload := none
  deleted_content : Option DetailedPayload := none
  summary : Option String := none
  deriving DecidableEq

/-- Result of `get_detailed_amendment_analysis`. -/
inductive DetailedResult where
  | err (msg : String)
  | ok (r : DetailedAnalysis)
  deriving DecidableEq

/-- `LegalDocumentAnalyzer.get_detailed_amendment_analysis`. -/
def get_detailed_amendment_analysis (st : AnalyzerState) (amendment_index : Int) :
    DetailedResult :=
  match st.amendment_data with
  | none => .err "Amendment data not loaded"
  | some ad =>
      let ams := ad.amendments
      if h : amendment_index < 0 ∨ (ams.length : Int) ≤ amendment_index then
        .err (outOfRangeMsg amendment_index ams.length)
      else
        let a := amendmentAt ams amendment_index h
        let t := a.amendment_type
        let article_number := a.target.article_number
        let analysis : DetailedAnalysis :=
          { amendment_index := amendment_index
            amendment_type := t
            target_article := article_number
            target_clause := a.target.clause_number
            is_new_article := a.target.insert_after_article.isSome
            insert_after := a.target.insert_after_article }
        let analysis :=
          match article_number with
          | some s =>
              if (t = some "Modification" ∨ t = some "Deletion") ∧ s ≠ "" then
                { analysis with original_content := some (get_article_content st s) }
              else analysis
          | none => analysis
        if t = some "Addition" then
          .ok { analysis with
                added_content := some ⟨a.text, a.clauses⟩
                summary := some ("New content added to Article " ++ pyStr article_number) }
        else if t = some "Modification" then
          .ok { analysis with
                modified_content := some ⟨a.text, a.clauses⟩
                summary := some ("Article " ++ pyStr article_number ++ " content modified") }
        else if t = some "Deletion" then
          .ok { analysis with
                deleted_content := some ⟨a.text, a.clauses⟩
                summary := some ("Content deleted from Article " ++ pyStr article_number) }
        else
          .ok analysis

/-- One entry of the `additions` bucket of the combined view. -/
structure AdditionEntry where
  clauses : List Clause
  text : String
  deriving DecidableEq

/-- One entry of the `modifications` or `deletions` bucket of the combined view. -/
structure ClauseKeyedEntry where
  target_clause : Option String
  clauses : List Clause
  text : String
  deriving DecidableEq

/-- The `for change in changes` bucketing loop of `get_combined_article_view`:
appends each matching change to the bucket named by its exact amendment type. -/
def bucketLoop (cs : List ChangeInfo)
    (acc : List ClauseKeyedEntry × List AdditionEntry × List ClauseKeyedEntry) :
    List ClauseKeyedEntry × List AdditionEntry × List ClauseKeyedEntry :=
  match cs with
  | [] => acc
  | c :: rest =>
      if c.amendment_type == some "Addition" then
        bucketLoop rest (acc.1, acc.2.1 ++ [⟨c.clauses, c.text⟩], acc.2.2)
      else if c.amendment_type == some "Modification" then
        bucketLoop rest (acc.1 ++ [⟨c.target.clause_number, c.clauses, c.text⟩], acc.2.1, acc.2.2)
      else if c.amendment_type == some "Deletion" then
        bucketLoop rest (acc.1, acc.2.1, acc.2.2 ++ [⟨c.target.clause_number, c.clauses, c.text⟩])
      else
        bucketLoop rest acc

/-- The synthesized new-article view (`source = "amendment_only"`). -/
structure NewArticleView where
  article_number : String
  is_new_article : Bool
  content : List Clause
  text : String
  insert_after : Option String
  source : String
  deriving DecidableEq

/-- The `combined_content` dictionary for an article present in the decree. -/
structure CombinedContent where
  article_number : String
  title : Option String
  chapter_number : Option String
  chapter_title : Option String
  clauses : List Clause
  modifications : List ClauseKeyedEntry
  additions : List AdditionEntry
  deletions : List ClauseKeyedEntry
  has_changes : Bool
  deriving DecidableEq

/-- Result of `get_combined_article_view`. -/
inductive CombinedResult where
  | err (msg : String)
  | newArticle (v : NewArticleView)
  | combined (c : CombinedContent)
  deriving DecidableEq

/-- `LegalDocumentAnalyzer.get_combined_article_view`. -/
def get_combined_article_view (st : AnalyzerState) (article_number : String) :
    CombinedResult :=
  match st.amendment_data with
  | none => .err "Amendment data not loaded"
  | some _ =>
      match get_article_content st article_number with
      | .err msg =>
          let changes := get_changes_in_article st article_number
          if 0 < changes.total_changesD then
            match changes.changesD.filter (fun c => c.amendment_type == some "Addition") with
            | c0 :: _ =>
                .newArticle
                  { article_number := article_number
                    is_new_article := true
                    content := c0.clauses
                    text := c0.text
                    insert_after := c0.insert_after_article
                    source := "amendment_only" }
            | [] => .err msg
          else .err msg
      | .found original_content =>
          let changes := get_changes_in_article st article_number
          let b := bucketLoop changes.changesD ([], [], [])
          .combined
            { article_number := article_number
              title := original_content.title
              chapter_number := original_content.chapter_number
              chapter_title := original_content.chapter_title
              clauses := original_content.clauses
              modifications := b.1
              additions := b.2.1
              deletions := b.2.2
              has_changes := 0 < b.1.length || 0 < b.2.1.length || 0 < b.2.2.length }

/-!
State-threaded forms of the eight analysis methods. Each method body reads
`self.decree_data` / `self.amendment_data` but contains no assignment to
either field (only the load methods assign), so a leaf method returns the
state it was given; composite methods thread the state through the methods
they call, mirroring the call structure of the source.
-/

/-- `get_changes_in_article` as a state transformer (reads only). -/
def run_get_changes_in_article (st : AnalyzerState) (q : String) :
    ChangesResult × AnalyzerState :=
  (get_changes_in_article st q, st)

/-- `summarize_all_changes` as a state transformer (reads only). -/
def run_summarize_all_changes (st : AnalyzerState) : SummarizeResult × AnalyzerState :=
  (summarize_all_changes st, st)

/-- `get_article_content` as a state transformer (reads only). -/
def run_get_article_content (st : AnalyzerState) (q : String) :
    ArticleContentResult × AnalyzerState :=
  (get_article_content st q, st)

/-- `get_amendment_details` as a state transformer (reads only). -/
def run_get_amendment_details (st : AnalyzerState) (i : Int) :
    AmendmentDetailsResult × AnalyzerState :=
  (get_amendment_details st i, st)

/-- `search_amendments_by_type` as a state transformer (reads only). -/
def run_search_amendments_by_type (st : AnalyzerState) (t : String) :
    SearchResult × AnalyzerState :=
  (search_amendments_by_type st t, st)

/-- `compare_article_before_after` as a state transformer: threads the state
through its two method calls. -/
def run_compare_article_before_after (st : AnalyzerState) (q : String) :
    CompareResult × AnalyzerState :=
  let (original_content, st1) := run_get_article_content st q
  let (changes, st2) := run_get_changes_in_article st1 q
  ({ article_number := q
     original_content := original_content
     changes := changes
     analysis :=
       { has_changes := 0 < changes.total_changesD
         change_types := changes.changesD.map (fun c => c.amendment_type)
         is_new_article := changes.changesD.any (fun c => c.target.insert_after_article.isSome) } },
   st2)

/-- `get_detailed_amendment_analysis` as a state transformer: threads the
state through the conditional `get_article_content` call. -/
def run_get_detailed_amendment_analysis (st : AnalyzerState) (amendment_index : Int) :
    DetailedResult × AnalyzerState :=
  match st.amendment_data with
  | none => (.err "Amendment data not loaded", st)
  | some ad =>
      let ams := ad.amendments
      if h : amendment_index < 0 ∨ (ams.length : Int) ≤ amendment_index then
        (.err (outOfRangeMsg amendment_index ams.length), st)
      else
        let a := amendmentAt ams amendment_index h
        let t := a.amendment_type
        let article_number := a.target.article_number
        let analysis : DetailedAnalysis :=
          { amendment_index := amendment_index
            amendment_type := t
            target_article := article_number
            target_clause := a.target.clause_number
            is_new_article := a.target.insert_after_article.isSome
            insert_after := a.target.insert_after_article }
        let (analysis, st1) :=
          match article_number with
          | some s =>
              if (t = some "Modification" ∨ t = some "Deletion") ∧ s ≠ "" then
                let (r, st') := run_get_article_content st s
                ({ analysis with original_content := some r }, st')
              else (analysis, st)
          | none => (analysis, st)
        if t = some "Addition" then
          (.ok { analysis with
                 added_content := some ⟨a.text, a.clauses⟩
                 summary := some ("New content added to Article " ++ pyStr article_number) },
           st1)
        else if t = some "Modification" then
          (.ok { analysis with
                 modified_content := some ⟨a.text, a.clauses⟩
                 summary := some ("Article " ++ pyStr article_number ++ " content modified") },
           st1)
        else if t = some "Deletion" then
          (.ok { analysis with
                 deleted_content := some ⟨a.text, a.clauses⟩
                 summary := some ("Content deleted from Article " ++ pyStr article_number) },
           st1)
        else
          (.ok analysis, st1)

/-- `get_combined_article_view` as a state transformer: threads the state
through its `get_article_content` and `get_changes_in_article` calls. -/
def run_get_combined_article_view (st : AnalyzerState) (article_number : String) :
    CombinedResult × AnalyzerState :=
  match st.amendment_data with
  | none => (.err "Amendment data not loaded", st)
  | some _ =>
      let (original, st1) := run_get_article_content st article_number
      match original with
      | .err msg =>
          let (changes, st2) := run_get_changes_in_article st1 article_number
          (if 0 < changes.total_changesD then
            match changes.changesD.filter (fun c => c.amendment_type == some "Addition") with
            | c0 :: _ =>
                .newArticle
                  { article_number := article_number
                    is_new_article := true
                    content := c0.clauses
                    text := c0.text
                    insert_after := c0.insert_after_article
                    source := "amendment_only" }
            | [] => .err msg
          else .err msg, st2)
      | .found original_content =>
          let (changes, st2) := run_get_changes_in_article st1 article_number
          let b := bucketLoop changes.changesD ([], [], [])
          (.combined
            { article_number := article_number
              title := original_content.title
              chapter_number := original_content.chapter_number
              chapter_title := original_content.chapter_title
              clauses := original_content.clauses
              modifications := b.1
              additions := b.2.1
              deletions := b.2.2
              has_changes := 0 < b.1.length || 0 < b.2.1.length || 0 < b.2.2.length },
           st2)

/-! ### Helper lemmas -/

theorem changesLoop_eq (ams : List Amendment) (q : String) :
    changesLoop ams q =
      (ams.filter (fun a => a.target.article_number == some q)).map mkChangeInfo := by
  induction ams with
  | nil => rfl
  | cons a rest ih =>
      cases h : a.target.article_number == some q <;>
        simp [changesLoop, List.filter_cons, h, ih]

theorem addToSet_mem (xs : List String) (x y : String) :
    y ∈ addToSet xs x ↔ y ∈ xs ∨ y = x := by
  unfold addToSet
  split <;> aesop

theorem addToSet_nodup (xs : List String) (x : String) (h : xs.Nodup) :
    (addToSet xs x).Nodup := by
  unfold addToSet
  split <;> simp_all [List.nodup_append]

theorem affectedLoop_mem (ams : List Amendment) (acc : List String) (y : String) :
    y ∈ affectedLoop ams acc ↔
      y ∈ acc ∨ ∃ a ∈ ams, a.target.article_number = some y := by
  induction ams generalizing acc with
  | nil => simp [affectedLoop]
  | cons a rest ih =>
      unfold affectedLoop
      cases h : a.target.article_number with
      | none => rw [ih]; aesop
      | some n => rw [ih]; simp only [addToSet_mem]; aesop

theorem affectedLoop_nodup (ams : List Amendment) (acc : List String) (h : acc.Nodup) :
    (affectedLoop ams acc).Nodup := by
  induction ams generalizing acc with
  | nil => simpa [affectedLoop]
  | cons a rest ih =>
      unfold affectedLoop
      cases ha : a.target.article_number with
      | none => exact ih _ h
      | some n => exact ih _ (addToSet_nodup _ _ h)

theorem newArticlesLoop_mem (ams : List Amendment) (acc : List String) (y : String) :
    y ∈ newArticlesLoop ams acc ↔
      y ∈ acc ∨ ∃ a ∈ ams,
        a.target.article_number = some y ∧ a.target.insert_after_article.isSome = true := by
  induction ams generalizing acc with
  | nil => simp [newArticlesLoop]
  | cons a rest ih =>
      cases h : a.target.article_number with
      | none =>
          have hstep : newArticlesLoop (a :: rest) acc = newArticlesLoop rest acc := by
            simp [newArticlesLoop, h]
          rw [hstep, ih]; aesop
      | some n =>
          cases hi : a.target.insert_after_article.isSome with
          | false =>
              have hstep : newArticlesLoop (a :: rest) acc = newArticlesLoop rest acc := by
                simp [newArticlesLoop, h, hi]
              rw [hstep, ih]; aesop
          | true =>
              have hstep : newArticlesLoop (a :: rest) acc =
                  newArticlesLoop rest (addToSet acc n) := by
                simp [newArticlesLoop, h, hi]
              rw [hstep, ih, addToSet_mem]; aesop

theorem newArticlesLoop_nodup (ams : List Amendment) (acc : List String) (h : acc.Nodup) :
    (newArticlesLoop ams acc).Nodup := by
  induction ams generalizing acc with
  | nil => simpa [newArticlesLoop]
  | cons a rest ih =>
      unfold newArticlesLoop
      cases ha : a.target.article_number with
      | none => exact ih _ h
      | some n =>
          cases hi : a.target.insert_after_article.isSome
          · simpa using ih _ h
          · simpa using ih _ (addToSet_nodup _ _ h)

theorem sortStrings_sorted (l : List String) :
    (sortStrings l).Sorted (· ≤ ·) :=
  List.sorted_insertionSort _ l

theorem sortStrings_perm (l : List String) : List.Perm (sortStrings l) l :=
  List.perm_insertionSort _ l

theorem sortStrings_nodup (l : List String) (h : l.Nodup) : (sortStrings l).Nodup :=
  (sortStrings_perm l).nodup_iff.mpr h

theorem sortStrings_mem (l : List String) (y : String) : y ∈ sortStrings l ↔ y ∈ l :=
  (sortStrings_perm l).mem_iff

theorem searchLoop_congr (ams : List Amendment) (i : Nat) (t1 t2 : String)
    (h : pyLower t1 = pyLower t2) :
    searchLoop ams i t1 = searchLoop ams i t2 := by
  induction ams generalizing i with
  | nil => rfl
  | cons a rest ih =>
      unfold searchLoop
      rw [h]
      split <;> rw [ih]

theorem bucketLoop_of_unclassified (cs : List ChangeInfo)
    (acc : List ClauseKeyedEntry × List AdditionEntry × List ClauseKeyedEntry)
    (h : ∀ c ∈ cs, c.amendment_type ≠ some "Addition" ∧
          c.amendment_type ≠ some "Modification" ∧ c.amendment_type ≠ some "Deletion") :
    bucketLoop cs acc = acc := by
  induction cs generalizing acc with
  | nil => rfl
  | cons c rest ih =>
      have hc := h c (by simp)
      unfold bucketLoop
      rw [if_neg (by simpa using hc.1), if_neg (by simpa using hc.2.1),
        if_neg (by simpa using hc.2.2)]
      exact ih _ (fun c hmem => h c (by simp [hmem]))

theorem articleNotFoundMsg_ne_notLoaded (q : String) :
    articleNotFoundMsg q ≠ "Decree data not loaded" := by
  intro h
  unfold articleNotFoundMsg at h
  have h2 := congrArg String.data h
  simp only [String.data_append, List.cons_append, List.append_assoc] at h2
  have h3 := List.head_eq_of_cons_eq h2
  exact absurd h3 (by decide)

/-! ### Loaded-state equations for the operations -/

theorem get_changes_in_article_loaded (st : AnalyzerState) (ad : AmendmentDoc) (q : String)
    (h : st.amendment_data = some ad) :
    get_changes_in_article st q =
      .ok { article_number := q
            changes := changesLoop ad.amendments q
            total_changes := (changesLoop ad.amendments q).length } := by
  unfold get_changes_in_article
  rw [h]

theorem summarize_all_changes_loaded (st : AnalyzerState) (ad : AmendmentDoc)
    (h : st.amendment_data = some ad) :
    summarize_all_changes st =
      .ok
        { total_amendments := ad.amendments.length
          amendment_types := countsLoop ad.amendments []
          articles_affected := (affectedLoop ad.amendments []).length
          affected_articles := sortStrings (affectedLoop ad.amendments [])
          new_articles_added := (newArticlesLoop ad.amendments []).length
          new_articles := sortStrings (newArticlesLoop ad.amendments []) }
        (ad.amendments.map mkDetailedChange) := by
  unfold summarize_all_changes
  rw [h]

theorem get_article_content_loaded (st : AnalyzerState) (d : Decree) (q : String)
    (h : st.decree_data = some d) :
    get_article_content st q =
      (match findInChapters d.chapters q with
        | some v => .found v
        | none => .err (articleNotFoundMsg q)) := by
  unfold get_article_content
  rw [h]

/-! ### Concrete fixtures used by witnesses and counterexamples -/

/-- An article "1" of the example decree. -/
def exArticle1 : Article :=
  { article_number := some "1", article_title := some "Scope", clauses := ["1.1"] }

/-- An article "7" of the example decree. -/
def exArticle7 : Article :=
  { article_number := some "7", article_title := some "Fees", clauses := ["7.1", "7.2"] }

/-- The example decree's single chapter. -/
def exChapterI : Chapter :=
  { chapter_number := some "I", chapter_title := some "GENERAL PROVISIONS"
    articles := [exArticle1, exArticle7] }

/-- The example decree. -/
def exDecree : Decree := { chapters := [exChapterI] }

/-- A modification of clause 1 of article "7". -/
def amMod7 : Amendment :=
  { amendment_type := some "Modification"
    target := { article_number := some "7", clause_number := some "1" }
    text := "amended text", clauses := [] }

/-- An addition to the existing article "7". -/
def amAdd7 : Amendment :=
  { amendment_type := some "Addition"
    target := { article_number := some "7" }
    text := "added", clauses := ["7.3"] }

/-- An addition creating the brand-new article "12a" after article "12". -/
def amAdd12a : Amendment :=
  { amendment_type := some "Addition"
    target := { article_number := some "12a", insert_after_article := some "12" }
    text := "new article", clauses := ["12a.1"] }

/-- The example amendment document. -/
def exAmendDoc : AmendmentDoc := { amendments := [amMod7, amAdd7, amAdd12a] }

/-- The example analyzer state with both documents loaded. -/
def exState : AnalyzerState :=
  { decree_data := some exDecree, amendment_data := some exAmendDoc }

/-! ### Claim theorems -/

/-- Claim C5: for every amendment sequence and article number, the `changes`
list of `get_changes_in_article` is exactly the order-preserving image of the
subsequence of amendments whose `target.article_number` is string-equal to the
query (no deduplication, no reordering), and `total_changes` is its length. -/
theorem changes_in_article_is_ordered_filter (st : AnalyzerState) (ad : AmendmentDoc)
    (q : String) (h : st.amendment_data = some ad) :
    get_changes_in_article st q =
      .ok { article_number := q
            changes := (ad.amendments.filter
              (fun a => a.target.article_number == some q)).map mkChangeInfo
            total_changes := (ad.amendments.filter
              (fun a => a.target.article_number == some q)).length } := by
  rw [get_changes_in_article_loaded st ad q h, changesLoop_eq]
  simp

/-- Witness for C5 at the concrete example state and article "7". -/
theorem changes_in_article_is_ordered_filter_witness :
    exState.amendment_data = some exAmendDoc ∧
    get_changes_in_article exState "7" =
      .ok { article_number := "7"
            changes := (exAmendDoc.amendments.filter
              (fun a => a.target.article_number == some "7")).map mkChangeInfo
            total_changes := (exAmendDoc.amendments.filter
              (fun a => a.target.article_number == some "7")).length } :=
  ⟨rfl, changes_in_article_is_ordered_filter exState exAmendDoc "7" rfl⟩

/-- Claim C4: for every amendment sequence, the `affected_articles` and
`new_articles` lists of `summarize_all_changes` are sorted ascending
(lexicographically, by the string order) and duplicate-free, and
`new_articles` is exactly the set of targeted article numbers whose target
carries `insert_after_article`. -/
theorem summarize_sorted_nodup (st : AnalyzerState) (ad : AmendmentDoc)
    (h : st.amendment_data = some ad) :
    ((summarize_all_changes st).affectedOf).Sorted (· ≤ ·) ∧
    ((summarize_all_changes st).affectedOf).Nodup ∧
    ((summarize_all_changes st).newOf).Sorted (· ≤ ·) ∧
    ((summarize_all_changes st).newOf).Nodup ∧
    (∀ x, x ∈ (summarize_all_changes st).affectedOf ↔
        ∃ a ∈ ad.amendments, a.target.article_number = some x) ∧
    (∀ x, x ∈ (summarize_all_changes st).newOf ↔
        ∃ a ∈ ad.amendments, a.target.article_number = some x ∧
          a.target.insert_after_article.isSome = true) := by
  rw [summarize_all_changes_loaded st ad h]
  simp only [SummarizeResult.affectedOf, SummarizeResult.newOf]
  refine ⟨sortStrings_sorted _,
    sortStrings_nodup _ (affectedLoop_nodup _ _ (by simp)),
    sortStrings_sorted _,
    sortStrings_nodup _ (newArticlesLoop_nodup _ _ (by simp)),
    fun x => ?_, fun x => ?_⟩
  · rw [sortStrings_mem, affectedLoop_mem]; simp
  · rw [sortStrings_mem, newArticlesLoop_mem]; simp

/-- Witness for C4 at the concrete example state. -/
theorem summarize_sorted_nodup_witness :
    exState.amendment_data = some exAmendDoc ∧
    (((summarize_all_changes exState).affectedOf).Sorted (· ≤ ·) ∧
    ((summarize_all_changes exState).affectedOf).Nodup ∧
    (((summarize_all_changes exState).newOf).Sorted (· ≤ ·)) ∧
    ((summarize_all_changes exState).newOf).Nodup ∧
    (∀ x, x ∈ (summarize_all_changes exState).affectedOf ↔
        ∃ a ∈ exAmendDoc.amendments, a.target.article_number = some x) ∧
    (∀ x, x ∈ (summarize_all_changes exState).newOf ↔
        ∃ a ∈ exAmendDoc.amendments, a.target.article_number = some x ∧
          a.target.insert_after_article.isSome = true)) :=
  ⟨rfl, summarize_sorted_nodup exState exAmendDoc rfl⟩

/-- The decree flattened in scan order: chapters in document order, each
chapter's articles in chapter order, every article paired with its chapter. -/
def decreeScan (d : Decree) : List (Chapter × Article) :=
  d.chapters.flatMap (fun ch => ch.articles.map (fun a => (ch, a)))

theorem findInArticles_eq (ch : Chapter) (arts : List Article) (q : String) :
    findInArticles ch arts q =
      ((arts.map (fun a => (ch, a))).find?
        (fun p => p.2.article_number == some q)).map (fun p => mkArticleView q p.1 p.2) := by
  induction arts with
  | nil => rfl
  | cons a rest ih =>
      cases hm : (a.article_number == some q) with
      | true =>
          rw [List.map_cons]
          rw [List.find?_cons_of_pos _ (by simpa using hm)]
          simp [findInArticles, hm]
      | false =>
          rw [List.map_cons]
          rw [List.find?_cons_of_neg _ (by simpa using hm)]
          simp [findInArticles, hm, ih]

theorem findInChapters_eq (chs : List Chapter) (q : String) :
    findInChapters chs q =
      ((chs.flatMap (fun ch => ch.articles.map (fun a => (ch, a)))).find?
        (fun p => p.2.article_number == some q)).map (fun p => mkArticleView q p.1 p.2) := by
  induction chs with
  | nil => rfl
  | cons ch rest ih =>
      rw [List.flatMap_cons, List.find?_append]
      unfold findInChapters
      rw [findInArticles_eq]
      cases hf : (ch.articles.map (fun a => (ch, a))).find?
          (fun p => p.2.article_number == some q) with
      | some p => simp [hf]
      | none => simp [hf, ih]

/-- Claim C8: `get_article_content` scans chapters in document order and
articles in chapter order, returning the view of the first article whose
`article_number` is exactly string-equal to the query together with its
enclosing chapter's number and title; with no exact match it returns the
not-found error carrying the requested number, which differs from the
decree-not-loaded error. -/
theorem article_content_scan_first_exact_match (st : AnalyzerState) (d : Decree) (q : String)
    (h : st.decree_data = some d) :
    (∀ ch a, (decreeScan d).find? (fun p => p.2.article_number == some q) = some (ch, a) →
        get_article_content st q = .found (mkArticleView q ch a)) ∧
    ((decreeScan d).find? (fun p => p.2.article_number == some q) = none →
        get_article_content st q = .err (articleNotFoundMsg q)) ∧
    articleNotFoundMsg q ≠ "Decree data not loaded" := by
  refine ⟨?_, ?_, articleNotFoundMsg_ne_notLoaded q⟩
  · intro ch a hp
    rw [get_article_content_loaded st d q h, findInChapters_eq]
    unfold decreeScan at hp
    rw [hp]
    rfl
  · intro hp
    rw [get_article_content_loaded st d q h, findInChapters_eq]
    unfold decreeScan at hp
    rw [hp]
    rfl

/-- Witness for C8 at the concrete example state and article "7". -/
theorem article_content_scan_first_exact_match_witness :
    exState.decree_data = some exDecree ∧
    ((∀ ch a, (decreeScan exDecree).find?
          (fun p => p.2.article_number == some "7") = some (ch, a) →
        get_article_content exState "7" = .found (mkArticleView "7" ch a)) ∧
    ((decreeScan exDecree).find? (fun p => p.2.article_number == some "7") = none →
        get_article_content exState "7" = .err (articleNotFoundMsg "7")) ∧
    articleNotFoundMsg "7" ≠ "Decree data not loaded") :=
  ⟨rfl, article_content_scan_first_exact_match exState exDecree "7" rfl⟩

/-- A second modification of article "7" (clause 2). -/
def amMod7b : Amendment :=
  { amendment_type := some "Modification"
    target := { article_number := some "7", clause_number := some "2" }
    text := "other amended text", clauses := [] }

/-- State with two modifications of the same article (for claim C2). -/
def exC2State : AnalyzerState :=
  { decree_data := some exDecree
    amendment_data := some { amendments := [amMod7, amMod7b] } }

/-- Counterexample to C2 as stated: with two matching amendments of the same
type, `change_types` lists the type twice, so it is not a duplicate-free list
of distinct types. -/
theorem compare_change_types_repeat_counterexample :
    (compare_article_before_after exC2State "7").analysis.change_types =
      [some "Modification", some "Modification"] ∧
    ¬ ((compare_article_before_after exC2State "7").analysis.change_types).Nodup := by
  have h1 : (compare_article_before_after exC2State "7").analysis.change_types =
      [some "Modification", some "Modification"] := rfl
  refine ⟨h1, ?_⟩
  rw [h1]
  decide

/-- Claim C2 (amended): `has_changes` is true iff at least one amendment
targets the article; `change_types` is the order-preserving list of the
matching amendments' `amendment_type` values (duplicates retained, not a
distinct-type list); `is_new_article` is true iff some matching amendment's
target contains `insert_after_article`. -/
theorem compare_analysis_characterization (st : AnalyzerState) (ad : AmendmentDoc)
    (q : String) (h : st.amendment_data = some ad) :
    ((compare_article_before_after st q).analysis.has_changes = true ↔
        (ad.amendments.filter (fun a => a.target.article_number == some q)) ≠ []) ∧
    ((compare_article_before_after st q).analysis.change_types =
        (ad.amendments.filter (fun a => a.target.article_number == some q)).map
          (fun a => a.amendment_type)) ∧
    ((compare_article_before_after st q).analysis.is_new_article = true ↔
        ∃ a ∈ ad.amendments, a.target.article_number = some q ∧
          a.target.insert_after_article.isSome = true) := by
  unfold compare_article_before_after
  rw [get_changes_in_article_loaded st ad q h]
  simp only [ChangesResult.total_changesD, ChangesResult.changesD, changesLoop_eq]
  refine ⟨?_, ?_, ?_⟩
  · simp [List.length_pos]
  · rw [List.map_map]; rfl
  · simp only [List.any_eq_true, List.mem_map, List.mem_filter]
    constructor
    · rintro ⟨c, ⟨a, ⟨ha, haq⟩, rfl⟩, hs⟩
      exact ⟨a, ha, by simpa using haq, by simpa [mkChangeInfo] using hs⟩
    · rintro ⟨a, ha, haq, hs⟩
      exact ⟨mkChangeInfo a, ⟨a, ⟨ha, by simpa using haq⟩, rfl⟩, by simpa [mkChangeInfo] using hs⟩

/-- Witness for the amended C2 at the concrete example state and article "7". -/
theorem compare_analysis_characterization_witness :
    exState.amendment_data = some exAmendDoc ∧
    (((compare_article_before_after exState "7").analysis.has_changes = true ↔
        (exAmendDoc.amendments.filter (fun a => a.target.article_number == some "7")) ≠ []) ∧
    ((compare_article_before_after exState "7").analysis.change_types =
        (exAmendDoc.amendments.filter (fun a => a.target.article_number == some "7")).map
          (fun a => a.amendment_type)) ∧
    ((compare_article_before_after exState "7").analysis.is_new_article = true ↔
        ∃ a ∈ exAmendDoc.amendments, a.target.article_number = some "7" ∧
          a.target.insert_after_article.isSome = true)) :=
  ⟨rfl, compare_analysis_characterization exState exAmendDoc "7" rfl⟩

/-- An Addition targeting an absent article without the new-article marker. -/
def amAdd12aNoMarker : Amendment :=
  { amendment_type := some "Addition"
    target := { article_number := some "12a" }
    text := "new article text", clauses := ["12a.1"] }

/-- The amendment list for the C1 counterexample state. -/
def exC1Amendments : List Amendment := [amAdd12aNoMarker]

/-- State for the C1 counterexample. -/
def exC1State : AnalyzerState :=
  { decree_data := some exDecree
    amendment_data := some { amendments := exC1Amendments } }

/-- Counterexample to C1 as stated: article "12a" is absent from the decree
and no matching amendment is an Addition carrying `insert_after_article`, yet
the combined view is a synthesized new-article view rather than the plain
not-found result — the code only checks the amendment type is `"Addition"`. -/
theorem combined_view_passthrough_counterexample :
    get_article_content exC1State "12a" = .err (articleNotFoundMsg "12a") ∧
    ((exC1Amendments.filter (fun a => a.target.article_number == some "12a")).all
      (fun a => !((a.amendment_type == some "Addition") &&
        a.target.insert_after_article.isSome))) = true ∧
    get_combined_article_view exC1State "12a" ≠ .err (articleNotFoundMsg "12a") ∧
    get_combined_article_view exC1State "12a" =
      .newArticle
        { article_number := "12a", is_new_article := true, content := ["12a.1"]
          text := "new article text", insert_after := none, source := "amendment_only" } :=
  ⟨rfl, rfl, by decide, rfl⟩

/-- Claim C1 (amended): for an article number with a not-found (or any error)
lookup result, if no matching amendment has amendment type exactly
`"Addition"`, the combined view returns exactly the lookup's error result. -/
theorem combined_view_notfound_passthrough (st : AnalyzerState) (ad : AmendmentDoc)
    (q msg : String)
    (h : st.amendment_data = some ad)
    (herr : get_article_content st q = .err msg)
    (hno : ∀ a ∈ ad.amendments, a.target.article_number = some q →
        a.amendment_type ≠ some "Addition") :
    get_combined_article_view st q = .err msg := by
  have hfilter : ((get_changes_in_article st q).changesD.filter
      (fun c => c.amendment_type == some "Addition")) = [] := by
    rw [get_changes_in_article_loaded st ad q h]
    simp only [ChangesResult.changesD, changesLoop_eq, List.filter_map]
    rw [List.map_eq_nil_iff, List.filter_eq_nil_iff]
    intro a ha
    simp only [List.mem_filter] at ha
    have := hno a ha.1 (by simpa using ha.2)
    simpa [mkChangeInfo] using this
  unfold get_combined_article_view
  rw [h, herr]
  simp only [hfilter]
  split <;> rfl

/-- Witness for the amended C1: article "99" is absent and nothing targets it. -/
theorem combined_view_notfound_passthrough_witness :
    exState.amendment_data = some exAmendDoc ∧
    get_article_content exState "99" = .err (articleNotFoundMsg "99") ∧
    get_combined_article_view exState "99" = .err (articleNotFoundMsg "99") :=
  ⟨rfl, rfl,
    combined_view_notfound_passthrough exState exAmendDoc "99" (articleNotFoundMsg "99")
      rfl rfl (by decide)⟩

/-- The article view of article "7" in the example decree. -/
def exView7 : ArticleView :=
  { article_number := "7", title := some "Fees", clauses := ["7.1", "7.2"]
    chapter_number := some "I", chapter_title := some "GENERAL PROVISIONS" }

/-- Claim C3: for an article present in the decree, the combined view's
`has_changes` flag is true iff at least one of the three overlay buckets
(`additions`, `modifications`, `deletions`) is non-empty. -/
theorem combined_view_has_changes_iff_buckets (st : AnalyzerState) (ad : AmendmentDoc)
    (q : String) (v : ArticleView)
    (h : st.amendment_data = some ad)
    (hfound : get_article_content st q = .found v) :
    ∃ c, get_combined_article_view st q = .combined c ∧
      (c.has_changes = true ↔
        (c.additions ≠ [] ∨ c.modifications ≠ [] ∨ c.deletions ≠ [])) := by
  unfold get_combined_article_view
  rw [h, hfound]
  refine ⟨_, rfl, ?_⟩
  simp only [Bool.or_eq_true, decide_eq_true_eq, List.length_pos]
  tauto

/-- Witness for C3 at the concrete example state and article "7". -/
theorem combined_view_has_changes_iff_buckets_witness :
    exState.amendment_data = some exAmendDoc ∧
    get_article_content exState "7" = .found exView7 ∧
    (∃ c, get_combined_article_view exState "7" = .combined c ∧
      (c.has_changes = true ↔
        (c.additions ≠ [] ∨ c.modifications ≠ [] ∨ c.deletions ≠ []))) :=
  ⟨rfl, rfl, combined_view_has_changes_iff_buckets exState exAmendDoc "7" exView7 rfl rfl⟩

/-- A matching amendment whose type is lowercase `"addition"` (unclassified
for bucketing, which compares case-sensitively). -/
def amLower7 : Amendment :=
  { amendment_type := some "addition"
    target := { article_number := some "7" }
    text := "case-sensitivity probe", clauses := ["x"] }

/-- State for claim C10: only a lowercase-typed amendment targets article "7". -/
def exC10State : AnalyzerState :=
  { decree_data := some exDecree
    amendment_data := some { amendments := [amLower7] } }

/-- Claim C10: for an article present in the decree with at least one matching
amendment, if every matching amendment's type differs from the exact
case-sensitive strings "Addition", "Modification" and "Deletion", the combined
view has all three buckets empty and `has_changes = false`, while
`get_changes_in_article` still reports `total_changes > 0` (bucketing is
case-sensitive, unlike the type search). -/
theorem combined_view_case_sensitive_buckets (st : AnalyzerState) (ad : AmendmentDoc)
    (q : String) (v : ArticleView)
    (h : st.amendment_data = some ad)
    (hfound : get_article_content st q = .found v)
    (hne : (ad.amendments.filter (fun a => a.target.article_number == some q)) ≠ [])
    (htypes : ∀ a ∈ ad.amendments, a.target.article_number = some q →
        a.amendment_type ≠ some "Addition" ∧ a.amendment_type ≠ some "Modification" ∧
          a.amendment_type ≠ some "Deletion") :
    ∃ c, get_combined_article_view st q = .combined c ∧
      c.additions = [] ∧ c.modifications = [] ∧ c.deletions = [] ∧
      c.has_changes = false ∧ 0 < (get_changes_in_article st q).total_changesD := by
  have hb : bucketLoop (get_changes_in_article st q).changesD ([], [], []) = ([], [], []) := by
    rw [get_changes_in_article_loaded st ad q h]
    simp only [ChangesResult.changesD, changesLoop_eq]
    apply bucketLoop_of_unclassified
    intro c hc
    simp only [List.mem_map] at hc
    obtain ⟨a, ha, rfl⟩ := hc
    simp only [List.mem_filter] at ha
    have := htypes a ha.1 (by simpa using ha.2)
    simpa [mkChangeInfo] using this
  have htot : 0 < (get_changes_in_article st q).total_changesD := by
    rw [get_changes_in_article_loaded st ad q h]
    simp only [ChangesResult.total_changesD, changesLoop_eq, List.length_map,
      List.length_pos]
    exact hne
  unfold get_combined_article_view
  rw [h, hfound]
  refine ⟨_, rfl, ?_, ?_, ?_, ?_, htot⟩ <;> simp [hb]

/-- Witness for C10: only the lowercase `"addition"` amendment targets "7". -/
theorem combined_view_case_sensitive_buckets_witness :
    exC10State.amendment_data = some { amendments := [amLower7] } ∧
    get_article_content exC10State "7" = .found exView7 ∧
    (∃ c, get_combined_article_view exC10State "7" = .combined c ∧
      c.additions = [] ∧ c.modifications = [] ∧ c.deletions = [] ∧
      c.has_changes = false ∧ 0 < (get_changes_in_article exC10State "7").total_changesD) :=
  ⟨rfl, rfl,
    combined_view_case_sensitive_buckets exC10State { amendments := [amLower7] } "7" exView7
      rfl rfl (by decide) (by decide)⟩

/-- A four-way conditional that returns `ok` in every branch returns `ok`. -/
theorem ok_of_ite_chain {c1 c2 c3 : Prop} [Decidable c1] [Decidable c2] [Decidable c3]
    (x y z w : DetailedAnalysis) :
    ∃ r, (if c1 then DetailedResult.ok x else if c2 then DetailedResult.ok y
      else if c3 then DetailedResult.ok z else DetailedResult.ok w) = .ok r := by
  split
  · exact ⟨_, rfl⟩
  · split
    · exact ⟨_, rfl⟩
    · split
      · exact ⟨_, rfl⟩
      · exact ⟨_, rfl⟩

/-- State with an empty amendment sequence loaded. -/
def exEmptyState : AnalyzerState :=
  { decree_data := some exDecree, amendment_data := some { amendments := [] } }

/-- Claim C6: `get_amendment_details` and `get_detailed_amendment_analysis`
return a record iff `0 ≤ i < count`; otherwise they return the structured
out-of-range error carrying the requested index and the count (and never an
index fault: both functions are total). -/
theorem amendment_details_bounds (st : AnalyzerState) (ad : AmendmentDoc) (i : Int)
    (h : st.amendment_data = some ad) :
    ((∃ r, get_amendment_details st i = .ok r) ↔
        0 ≤ i ∧ i < (ad.amendments.length : Int)) ∧
    (¬(0 ≤ i ∧ i < (ad.amendments.length : Int)) →
        get_amendment_details st i = .err (outOfRangeMsg i ad.amendments.length)) ∧
    ((∃ r, get_detailed_amendment_analysis st i = .ok r) ↔
        0 ≤ i ∧ i < (ad.amendments.length : Int)) ∧
    (¬(0 ≤ i ∧ i < (ad.amendments.length : Int)) →
        get_detailed_amendment_analysis st i = .err (outOfRangeMsg i ad.amendments.length)) := by
  simp only [get_amendment_details, get_detailed_amendment_analysis, h]
  by_cases hb : i < 0 ∨ (ad.amendments.length : Int) ≤ i
  · rw [dif_pos hb, dif_pos hb]
    have hcond : ¬(0 ≤ i ∧ i < (ad.amendments.length : Int)) := by omega
    refine ⟨⟨?_, fun hc => absurd hc hcond⟩, fun _ => rfl,
      ⟨?_, fun hc => absurd hc hcond⟩, fun _ => rfl⟩
    · rintro ⟨r, hr⟩
      exact absurd hr (by simp)
    · rintro ⟨r, hr⟩
      exact absurd hr (by simp)
  · rw [dif_neg hb, dif_neg hb]
    have hcond : 0 ≤ i ∧ i < (ad.amendments.length : Int) := by omega
    exact ⟨⟨fun _ => hcond, fun _ => ⟨_, rfl⟩⟩, fun hc => absurd hcond hc,
      ⟨fun _ => hcond, fun _ => ok_of_ite_chain _ _ _ _⟩, fun hc => absurd hcond hc⟩

/-- Witness for C6: index -1, index = count, index 0 on an empty sequence all
give the out-of-range error; an in-range index gives a record. -/
theorem amendment_details_bounds_witness :
    exState.amendment_data = some exAmendDoc ∧
    get_amendment_details exState (-1) = .err (outOfRangeMsg (-1) 3) ∧
    get_amendment_details exState 3 = .err (outOfRangeMsg 3 3) ∧
    get_detailed_amendment_analysis exState (-1) = .err (outOfRangeMsg (-1) 3) ∧
    exEmptyState.amendment_data = some { amendments := [] } ∧
    get_amendment_details exEmptyState 0 = .err (outOfRangeMsg 0 0) ∧
    (∃ r, get_amendment_details exState 1 = .ok r) ∧
    (∃ r, get_detailed_amendment_analysis exState 1 = .ok r) :=
  ⟨rfl,
   (amendment_details_bounds exState exAmendDoc (-1) rfl).2.1 (by decide),
   (amendment_details_bounds exState exAmendDoc 3 rfl).2.1 (by decide),
   (amendment_details_bounds exState exAmendDoc (-1) rfl).2.2.2 (by decide),
   rfl,
   (amendment_details_bounds exEmptyState { amendments := [] } 0 rfl).2.1 (by decide),
   (amendment_details_bounds exState exAmendDoc 1 rfl).1.mpr (by decide),
   (amendment_details_bounds exState exAmendDoc 1 rfl).2.2.1.mpr (by decide)⟩

/-- Claim C7: `search_amendments_by_type` matches case-insensitively: two
queries equal up to ASCII case produce identical `matches` lists (same
amendments, same order, same indices) and identical totals. -/
theorem search_by_type_case_insensitive (st : AnalyzerState) (t1 t2 : String)
    (h : pyLower t1 = pyLower t2) :
    (search_amendments_by_type st t1).matchesOf =
      (search_amendments_by_type st t2).matchesOf ∧
    (search_amendments_by_type st t1).totalOf =
      (search_amendments_by_type st t2).totalOf := by
  cases hm : st.amendment_data with
  | none => simp [search_amendments_by_type, hm]
  | some ad =>
      simp only [search_amendments_by_type, hm, SearchResult.matchesOf, SearchResult.totalOf]
      rw [searchLoop_congr ad.amendments 0 t1 t2 h]
      exact ⟨rfl, rfl⟩

/-- Witness for C7: queries "addition" and "Addition" at the example state. -/
theorem search_by_type_case_insensitive_witness :
    pyLower "addition" = pyLower "Addition" ∧
    ((search_amendments_by_type exState "addition").matchesOf =
      (search_amendments_by_type exState "Addition").matchesOf ∧
    (search_amendments_by_type exState "addition").totalOf =
      (search_amendments_by_type exState "Addition").totalOf) :=
  ⟨by decide, search_by_type_case_insensitive exState "addition" "Addition" (by decide)⟩

/-- Claim C9: each of the eight analysis operations, run as a state
transformer, leaves the analyzer state exactly as it was, and its result is
the pure function of the state and the arguments (the loads are the only
state-changing operations). -/
theorem analysis_operations_pure (st : AnalyzerState) (q t : String) (i : Int) :
    run_get_changes_in_article st q = (get_changes_in_article st q, st) ∧
    run_summarize_all_changes st = (summarize_all_changes st, st) ∧
    run_get_article_content st q = (get_article_content st q, st) ∧
    run_compare_article_before_after st q = (compare_article_before_after st q, st) ∧
    run_get_amendment_details st i = (get_amendment_details st i, st) ∧
    run_search_amendments_by_type st t = (search_amendments_by_type st t, st) ∧
    run_get_detailed_amendment_analysis st i = (get_detailed_amendment_analysis st i, st) ∧
    run_get_combined_article_view st q = (get_combined_article_view st q, st) := by
  refine ⟨rfl, rfl, rfl, rfl, rfl, rfl, ?_, ?_⟩
  · simp only [run_get_detailed_amendment_analysis, get_detailed_amendment_analysis,
      run_get_article_content]
    cases hm : st.amendment_data with
    | none => rfl
    | some ad =>
        repeat' split
        all_goals rfl
  · simp only [run_get_combined_article_view, get_combined_article_view,
      run_get_article_content, run_get_changes_in_article]
    cases hm : st.amendment_data with
    | none => rfl
    | some ad =>
        cases hg : get_article_content st q with
        | err msg =>
            repeat' split
            all_goals rfl
        | found v => rfl

end LegalMCP
